import Mathlib

/-!
Verification of the pixie-discord voice bot core against its specification.

The development shallowly embeds the TypeScript source:
- `GeminiModel` and `AIEngine` (src/unnamed/part_001, "ai-engine"),
- `VoiceProcessor` (src/unnamed/part_003, "voice-processor"),
- `DiscordVoiceManager` (src/src/core/discord-voice.ts).

JavaScript machine numbers appearing here (buffer bytes, 16-bit samples,
array lengths, timestamps) are modelled as `Nat`/`Int`; the only fractional
arithmetic (emotion intensity and confidence) is exact in the source ranges,
so it is modelled with `Rat`.  Stateful methods become functions from a
state record to a new state record; methods that can `throw` return
`Except String`.
-/

/-- Substring test on character lists: embeds JavaScript
`String.prototype.includes` as used by `isRateLimitError`. -/
def containsSub : List Char → List Char → Bool
  | [], sub => sub.isEmpty
  | c :: rest, sub => sub.isPrefixOf (c :: rest) || containsSub rest sub

/-- Fuel-driven helper for `countOccs`: counts non-overlapping, left-to-right
occurrences of `kw`, which is how a JavaScript global regex over a literal
keyword counts matches in `analyzeEmotion`.  The fuel is always instantiated
with the length of the scanned list, which suffices because each step
consumes at least one character. -/
def countOccsAux (kw : List Char) : Nat → List Char → Nat
  | 0, _ => 0
  | _ + 1, [] => 0
  | fuel + 1, c :: rest =>
    if kw ≠ [] ∧ kw.isPrefixOf (c :: rest) then
      1 + countOccsAux kw fuel (rest.drop (kw.length - 1))
    else
      countOccsAux kw fuel rest

/-- Number of non-overlapping occurrences of `kw` in `s`
(JavaScript `textLower.match(new RegExp(keyword, "g"))?.length || 0`;
the keywords contain no regex metacharacters, so the regex matches the
literal keyword). -/
def countOccs (kw s : List Char) : Nat := countOccsAux kw s.length s

/-- JavaScript `String.prototype.toLowerCase` as used by the embedded code:
every character it is applied to here (keyword letters, quota signals)
lowercases per character, so it is the per-character lowercase map. -/
def toLowerStr (s : String) : String := String.mk (s.data.map Char.toLower)

/-- `EmotionalResponse` from src/src/types/ai-models.ts.  The `number`
fields hold exact values (`k/5` clamped to 1, and the constant `0.7`),
modelled as rationals. -/
structure EmotionalResponse where
  emotion : String
  intensity : Rat
  confidence : Rat
deriving DecidableEq, Repr

/-- `AIResponse` from src/src/types/ai-models.ts. -/
structure AIResponse where
  text : String
  model_name : String
  emotional_response : EmotionalResponse
deriving DecidableEq, Repr

/-- The `emotions` table of `GeminiModel.analyzeEmotion`
(src/unnamed/part_001 lines 66-72), in declaration order.  The emoji
literals are the source's emoji restored from the file's UTF-8 mojibake. -/
def emotionKeywords : List (String × List String) :=
  [ ("happy", ["happy", "joy", "excited", "glad", "😊", "😃"]),
    ("sad", ["sad", "sorry", "unfortunate", "regret", "😢", "😔"]),
    ("angry", ["angry", "upset", "frustrated", "annoyed", "😠", "😡"]),
    ("confused", ["confused", "unsure", "maybe", "perhaps", "🤔", "😕"]),
    ("neutral", ["neutral", "okay", "fine", "normal", "🙂", "😐"]) ]

/-- The `keywords.reduce` hit count of `analyzeEmotion`
(src/unnamed/part_001 lines 79-80). -/
def keywordHits (keywords : List String) (textLower : String) : Nat :=
  keywords.foldl (fun acc kw => acc + countOccs kw.data textLower.data) 0

/-- `GeminiModel.analyzeEmotion` (src/unnamed/part_001 lines 65-92):
the running `(maxEmotion, maxCount)` pair starts at `("neutral", 0)` and an
emotion replaces it only when its hit count is strictly greater. -/
def analyzeEmotion (text : String) : EmotionalResponse :=
  let textLower := toLowerStr text
  let best := emotionKeywords.foldl
    (fun best p =>
      let count := keywordHits p.2 textLower
      if best.2 < count then (p.1, count) else best)
    ("neutral", 0)
  { emotion := best.1,
    intensity := min ((best.2 : Rat) / 5) 1,
    confidence := 7 / 10 }

/-- `ModelConfig` from src/src/types/ai-models.ts, restricted to the fields
`GeminiModel` reads (`temperature`, `max_tokens`, `model_path`, `model_type`
are never read by the embedded code). -/
structure ModelConfig where
  api_keys : List String
  model_name : Option String
  current_key_index : Option Nat
deriving DecidableEq, Repr

/-- Mutable state of a `GeminiModel` instance (src/unnamed/part_001 lines
5-9).  `client` records the API key the `GoogleGenerativeAI` client was
constructed with (`none` meaning the `null` client). -/
structure GeminiState where
  client : Option String
  config : Option ModelConfig
  usage_tokens : Nat
  usage_requests : Nat
deriving DecidableEq, Repr

/-- `GeminiModel.initializeClient` (src/unnamed/part_001 lines 19-25):
builds the client from `api_keys[current_key_index || 0]`. -/
def GeminiState.initializeClient (s : GeminiState) : Except String GeminiState :=
  match s.config with
  | none => .error "Model not initialized or no API keys available"
  | some cfg =>
    if cfg.api_keys.length = 0 then
      .error "Model not initialized or no API keys available"
    else
      .ok { s with client := some (cfg.api_keys.getD (cfg.current_key_index.getD 0) "") }

/-- `GeminiModel.rotateApiKey` (src/unnamed/part_001 lines 94-100):
advances `current_key_index` by one modulo the key count, then rebuilds the
client. -/
def GeminiState.rotateApiKey (s : GeminiState) : Except String GeminiState :=
  match s.config with
  | none => .error "No API keys available"
  | some cfg =>
    if cfg.api_keys.length = 0 then
      .error "No API keys available"
    else
      let idx := (cfg.current_key_index.getD 0 + 1) % cfg.api_keys.length
      GeminiState.initializeClient
        { s with config := some { cfg with current_key_index := some idx } }

/-- `GeminiModel.initialize` (src/unnamed/part_001 lines 11-17; named
`initModel` here because the source's method name is reserved in Lean):
rejects an empty key list, stores the config, and immediately calls
`rotateApiKey`. -/
def GeminiState.initModel (s : GeminiState) (config : ModelConfig) : Except String GeminiState :=
  if config.api_keys.length = 0 then
    .error "No API keys provided for Gemini model"
  else
    GeminiState.rotateApiKey { s with config := some config }

/-- `GeminiModel.isRateLimitError` (src/unnamed/part_001 lines 58-63); the
thrown values reaching it in this embedding always carry a message string. -/
def isRateLimitError (msg : String) : Bool :=
  containsSub (toLowerStr msg).data "quota".data ||
    containsSub (toLowerStr msg).data "rate limit".data

/-- Outcome of one call to the external `model.generateContent` API.  A run
of `GeminiModel.generateResponse` is driven by a list of such outcomes, one
per attempt, standing for the nondeterministic environment. -/
inductive ApiOutcome where
  | success (text : String)
  | failure (message : String)
deriving DecidableEq, Repr

/-- `GeminiModel.generateResponse` (src/unnamed/part_001 lines 27-56).
Each recursive self-invocation after a rate-limit rotation consumes the
next oracle outcome, so the returned outcome list remainder measures how
many attempts were made.  The empty-oracle case is an artifact of the
finite oracle and is never reached in the theorems below. -/
def GeminiState.generateResponse (s : GeminiState) (prompt : String) (context : List String) :
    List ApiOutcome → Except String (AIResponse × GeminiState × List ApiOutcome)
  | [] => .error "no model outcome"
  | o :: rest =>
    match s.client, s.config with
    | some _, some _ =>
      match o with
      | .success text =>
        .ok ({ text := text, model_name := "gemini",
               emotional_response := analyzeEmotion text },
             { s with usage_requests := s.usage_requests + 1,
                      usage_tokens := s.usage_tokens + (text.length + 3) / 4 },
             rest)
      | .failure msg =>
        if isRateLimitError msg then
          match s.rotateApiKey with
          | .ok s₁ => s₁.generateResponse prompt context rest
          | .error e => .error e
        else
          .error msg
    | _, _ => .error "Model not initialized"

/-- Iterated `rotateApiKey`, used to state the round-robin property of the
credential cursor. -/
def rotateN (s : GeminiState) : Nat → Except String GeminiState
  | 0 => .ok s
  | n + 1 =>
    match s.rotateApiKey with
    | .ok s₁ => rotateN s₁ n
    | .error e => .error e

/-- `PersonaMetadata` (src/unnamed/part_002 persona types), restricted to
the fields `AIEngine.generateResponse` reads; `id`, `chat_rules`,
`behavior`, `memories` and `voice_settings` are never read by the embedded
engine code. -/
structure PersonaMetadata where
  name : String
  role : String
  background : String
  speech_patterns : List String
deriving DecidableEq, Repr

/-- A registered backend as the `AIEngine` sees it through the `AIModel`
interface (src/src/types/ai-models.ts): its `name`, the verdict of
`isAvailable()` and the outcome of `generateResponse(prompt, context)`
during the engine call being analysed. -/
structure BackendModel where
  name : String
  available : Bool
  generate : String → List String → Except String AIResponse

/-- Mutable state of an `AIEngine` (src/unnamed/part_001 lines 111-116).
`models` is the `Map` in insertion (registration) order; `activeModel`
holds the registry index of the model object the `activeModel` reference
points at (hence the JavaScript identity test `model !== this.activeModel`
becomes an index comparison). -/
structure AIEngine where
  models : List (String × BackendModel)
  activeModel : Option Nat
  persona : Option PersonaMetadata
  conversationHistory : List (String × List String)

/-- `private readonly maxHistoryPairs = 10` (src/unnamed/part_001 line 116). -/
def maxHistoryPairs : Nat := 10

/-- JavaScript `Map.prototype.set` on an association list: overwrites the
entry in place if the key exists, else appends. -/
def assocSet (l : List (String × List String)) (k : String) (v : List String) :
    List (String × List String) :=
  match l with
  | [] => [(k, v)]
  | (k₁, v₁) :: rest =>
    if k₁ = k then (k, v) :: rest else (k₁, v₁) :: assocSet rest k v

/-- Index of the entry `Map.prototype.get` would return for key `k`. -/
def mapGetIdx (models : List (String × BackendModel)) (k : String) : Option Nat :=
  models.findIdx? (fun p => p.1 = k)

/-- `AIEngine.getContextForUser` (src/unnamed/part_001 lines 155-157). -/
def AIEngine.getContextForUser (e : AIEngine) (userId : String) : List String :=
  (List.lookup userId e.conversationHistory).getD []

/-- `AIEngine.updateContext` (src/unnamed/part_001 lines 159-169): push the
new `User:`/`Assistant:` pair, then `splice(0, 2)` away the oldest pair
when the length exceeds `maxHistoryPairs * 2`. -/
def AIEngine.updateContext (e : AIEngine) (userId message response : String) : AIEngine :=
  let history := e.getContextForUser userId
  let history := history ++ ["User: " ++ message, "Assistant: " ++ response]
  let history := if maxHistoryPairs * 2 < history.length then history.drop 2 else history
  { e with conversationHistory := assocSet e.conversationHistory userId history }

/-- The context array built by `AIEngine.generateResponse`
(src/unnamed/part_001 lines 179-183): persona preamble, speaking style,
then the participant's history. -/
def AIEngine.mkContext (p : PersonaMetadata) (hist : List String) : List String :=
  ("You are " ++ p.name ++ ", " ++ p.role ++ ". " ++ p.background) ::
    ("Speaking style: " ++ String.intercalate ", " p.speech_patterns) :: hist

/-- The registry values with their indices, in registration order
(`this.models.values()`). -/
def enumIdx : Nat → List (String × BackendModel) → List (Nat × BackendModel)
  | _, [] => []
  | n, p :: l => (n, p.2) :: enumIdx (n + 1) l

/-- `this.models.values()` with registry indices attached. -/
def AIEngine.modelList (e : AIEngine) : List (Nat × BackendModel) :=
  enumIdx 0 e.models

/-- The fallback loop of `AIEngine.generateResponse` (src/unnamed/part_001
lines 193-206): skip the active model and unavailable models; the first
remaining model whose generate call succeeds becomes active and its
response is recorded in the history; if none succeeds the engine throws. -/
def AIEngine.tryFallback (e : AIEngine) (userId message : String) (context : List String) :
    List (Nat × BackendModel) → Except String AIResponse × AIEngine
  | [] => (.error "All AI models failed to generate response", e)
  | (i, m) :: rest =>
    if some i ≠ e.activeModel ∧ m.available = true then
      match m.generate message context with
      | .ok resp =>
        (.ok resp, AIEngine.updateContext { e with activeModel := some i } userId message resp.text)
      | .error _ => AIEngine.tryFallback e userId message context rest
    else
      AIEngine.tryFallback e userId message context rest

/-- `AIEngine.generateResponse` (src/unnamed/part_001 lines 171-209).  The
returned engine is the state after the call, on every path.  The inner
`e.models.get?` cannot return `none` when `activeModel` was set from the
registry; the branch mirrors the impossibility of a dangling reference. -/
def AIEngine.generateResponse (e : AIEngine) (userId message : String) :
    Except String AIResponse × AIEngine :=
  match e.activeModel with
  | none => (.error "No active AI model", e)
  | some ai =>
    match e.persona with
    | none => (.error "No persona set", e)
    | some p =>
      let context := AIEngine.mkContext p (e.getContextForUser userId)
      match e.models.get? ai with
      | none => (.error "No active AI model", e)
      | some entry =>
        match entry.2.generate message context with
        | .ok resp => (.ok resp, e.updateContext userId message resp.text)
        | .error _ => AIEngine.tryFallback e userId message context (AIEngine.modelList e)

/-- `AIEngine.switchModel` (src/unnamed/part_001 lines 211-218). -/
def AIEngine.switchModel (e : AIEngine) (t : String) : Bool × AIEngine :=
  match mapGetIdx e.models t with
  | none => (false, e)
  | some i =>
    match e.models.get? i with
    | none => (false, e)
    | some entry =>
      if entry.2.available then (true, { e with activeModel := some i }) else (false, e)

/-- `AIEngine.getActiveModel` (src/unnamed/part_001 lines 220-222):
`this.activeModel?.name || "none"`; an empty name string is falsy in
JavaScript and also yields `"none"`. -/
def AIEngine.getActiveModel (e : AIEngine) : String :=
  match e.activeModel.bind (fun i => e.models.get? i) with
  | none => "none"
  | some entry => if entry.2.name = "" then "none" else entry.2.name

/-- `AIEngine.generateResponse` applied to a sequence of
`(participant, message)` calls, threading the engine state. -/
def runCalls (e : AIEngine) (calls : List (String × String)) : AIEngine :=
  calls.foldl (fun e c => (AIEngine.generateResponse e c.1 c.2).2) e

/-- The conversation-history invariant claimed by the specification: every
participant's history has at most `2 * maxHistoryPairs` entries and always
an even number of them. -/
def historyInv (e : AIEngine) : Prop :=
  ∀ userId, (e.getContextForUser userId).length ≤ 2 * maxHistoryPairs ∧
    (e.getContextForUser userId).length % 2 = 0

/-- `AudioChunk` (src/unnamed/part_003 lines 5-8): a PCM buffer (list of
bytes) with its capture timestamp. -/
structure AudioChunk where
  data : List Nat
  timestamp : Nat
deriving DecidableEq, Repr

/-- Mutable fields of a `VoiceProcessor` instance (src/unnamed/part_003
lines 13-17 and 222-226; both versions of the class declare the same
fields with the same initial values). -/
structure VoiceProcessorState where
  audioBuffer : List AudioChunk
  isProcessing : Bool
  silenceThreshold : Nat
  lastAudioTime : Nat
  vadEnabled : Bool
deriving DecidableEq, Repr

/-- Little-endian signed 16-bit value of two bytes
(`Buffer.prototype.readInt16LE`). -/
def toSigned16 (b0 b1 : Nat) : Int :=
  let u := b0 + 256 * b1
  if u < 32768 then (u : Int) else (u : Int) - 65536

/-- The `for (let i = 0; i < audioData.length; i += 2)` loop of
`detectSpeech` (src/unnamed/part_003 lines 31-35) in structural form:
each step reads bytes `i` and `i + 1` and adds the squared sample.
`readInt16LE` demands two bytes, so a trailing single byte raises Node's
`ERR_OUT_OF_RANGE`.  The accumulated values are exact integers far below
`2 ^ 53`, so JavaScript double addition computes them exactly. -/
def sumSquares : List Nat → Except String Int
  | [] => .ok 0
  | [_] => .error "ERR_OUT_OF_RANGE"
  | b0 :: b1 :: rest =>
    match sumSquares rest with
    | .ok acc => .ok (toSigned16 b0 b1 * toSigned16 b0 b1 + acc)
    | .error e => .error e

/-- `VoiceProcessor.detectSpeech` (src/unnamed/part_003 lines 27-40 and
235-246, identical bodies).  The source compares
`Math.sqrt(sum / (audioData.length / 2)) > 1000`; for an empty frame this
is `NaN > 1000 = false`, and for a non-empty even-length frame the doubles
involved are exact far from the comparison boundary, so the test equals
`2 * sum > 1000000 * length` over the integers. -/
def detectSpeech (st : VoiceProcessorState) (audioData : List Nat) : Except String Bool :=
  if st.vadEnabled = false then .ok true
  else
    match sumSquares audioData with
    | .error e => .error e
    | .ok sum =>
      .ok (if audioData.length = 0 then false
           else decide ((1000000 : Int) * audioData.length < 2 * sum))

/-- What one `vadStream` transform step hands downstream
(src/unnamed/part_003 lines 77-109): a speech chunk forwarded as-is, the
flushed concatenation of the buffered chunks, or nothing. -/
inductive VadOutput where
  | forward (data : List Nat)
  | flush (data : List Nat)
  | silent
deriving DecidableEq, Repr

/-- One step of the `vadStream` transform of
`VoiceProcessor.processAudioStream` (src/unnamed/part_003 lines 77-109).
`now` is the value of `Date.now()` during the step (the source reads it
twice on the speech path within the same tick). -/
def vadTransformStep (st : VoiceProcessorState) (chunk : List Nat) (now : Nat) :
    Except String (VoiceProcessorState × VadOutput) :=
  match detectSpeech st chunk with
  | .error e => .error e
  | .ok true =>
    .ok ({ st with lastAudioTime := now,
                   audioBuffer := st.audioBuffer ++ [{ data := chunk, timestamp := now }] },
         .forward chunk)
  | .ok false =>
    let silenceDuration := now - st.lastAudioTime
    if st.silenceThreshold < silenceDuration ∧ st.audioBuffer ≠ [] then
      .ok ({ st with audioBuffer := [] },
           .flush (st.audioBuffer.map AudioChunk.data).join)
    else
      .ok (st, .silent)

/-- The per-connection state of `DiscordVoiceManager`
(src/src/core/discord-voice.ts lines 17-27): the audio streams map is
keyed by participant, but a single `VoiceProcessor` instance is shared by
every participant. -/
structure DiscordVoiceManagerState where
  voiceProcessor : VoiceProcessorState
  activeStreams : List (String × Nat)
deriving DecidableEq, Repr

/-- Processing one decoded PCM chunk of the named participant's stream:
`handleUserStoppedSpeaking` pipes each participant's stream through
`this.voiceProcessor` (src/src/core/discord-voice.ts lines 203-230), so a
frame from any participant is transformed against the same shared
`VoiceProcessor` fields; the participant identifier selects only the
stream, never the processor state. -/
def processParticipantFrame (s : DiscordVoiceManagerState) (participantId : String)
    (chunk : List Nat) (now : Nat) :
    Except String (DiscordVoiceManagerState × VadOutput) :=
  match vadTransformStep s.voiceProcessor chunk now with
  | .ok (vp, out) => .ok ({ s with voiceProcessor := vp }, out)
  | .error e => .error e

/-- `Map.set` followed by `Map.get` on the written key. -/
theorem lookup_assocSet_self (l : List (String × List String)) (k : String) (v : List String) :
    List.lookup k (assocSet l k v) = some v := by
  induction l with
  | nil => simp [assocSet, List.lookup]
  | cons p rest ih =>
    obtain ⟨k₁, v₁⟩ := p
    by_cases h : k₁ = k
    · subst h
      simp [assocSet, List.lookup]
    · have hb : (k == k₁) = false := beq_eq_false_iff_ne.mpr (Ne.symm h)
      simp [assocSet, h, List.lookup, hb, ih]

/-- `Map.set` leaves every other key unchanged. -/
theorem lookup_assocSet_ne (l : List (String × List String)) (k k₁ : String)
    (v : List String) (h : k₁ ≠ k) :
    List.lookup k₁ (assocSet l k v) = List.lookup k₁ l := by
  have hb : (k₁ == k) = false := beq_eq_false_iff_ne.mpr h
  induction l with
  | nil => simp [assocSet, List.lookup, hb]
  | cons p rest ih =>
    obtain ⟨k₂, v₂⟩ := p
    by_cases h₂ : k₂ = k
    · subst h₂
      simp [assocSet, List.lookup, hb]
    · simp [assocSet, h₂, List.lookup, ih]

/-- Effect of `updateContext` on the updated participant's history. -/
theorem getContext_updateContext_self (e : AIEngine) (u m r : String) :
    (e.updateContext u m r).getContextForUser u =
      (if maxHistoryPairs * 2 < (e.getContextForUser u ++ ["User: " ++ m, "Assistant: " ++ r]).length
       then (e.getContextForUser u ++ ["User: " ++ m, "Assistant: " ++ r]).drop 2
       else e.getContextForUser u ++ ["User: " ++ m, "Assistant: " ++ r]) := by
  unfold AIEngine.updateContext
  show (List.lookup u (assocSet e.conversationHistory u _)).getD [] = _
  rw [lookup_assocSet_self]
  rfl

/-- `updateContext` leaves every other participant's history unchanged. -/
theorem getContext_updateContext_ne (e : AIEngine) (u u₁ m r : String) (h : u₁ ≠ u) :
    (e.updateContext u m r).getContextForUser u₁ = e.getContextForUser u₁ := by
  unfold AIEngine.updateContext
  show (List.lookup u₁ (assocSet e.conversationHistory u _)).getD [] = _
  rw [lookup_assocSet_ne _ _ _ _ h]
  rfl

/-- `updateContext` preserves the history invariant. -/
theorem historyInv_updateContext (e : AIEngine) (u m r : String) (hInv : historyInv e) :
    historyInv (e.updateContext u m r) := by
  intro u₁
  by_cases h : u₁ = u
  · subst h
    rw [getContext_updateContext_self]
    obtain ⟨hle, hev⟩ := hInv u₁
    split
    · simp only [List.length_drop, List.length_append, List.length_cons, List.length_nil]
      omega
    · simp only [List.length_append, List.length_cons, List.length_nil] at *
      omega
  · rw [getContext_updateContext_ne _ _ _ _ _ h]
    exact hInv u₁

/-- Changing the active-backend pointer does not touch any history. -/
theorem historyInv_setActive (e : AIEngine) (x : Option Nat) (h : historyInv e) :
    historyInv { e with activeModel := x } :=
  fun u => h u

/-- The fallback loop preserves the history invariant. -/
theorem historyInv_tryFallback (e : AIEngine) (userId message : String)
    (context : List String) (hInv : historyInv e) :
    ∀ L, historyInv (AIEngine.tryFallback e userId message context L).2 := by
  intro L
  induction L with
  | nil => exact hInv
  | cons p rest ih =>
    obtain ⟨i, m⟩ := p
    unfold AIEngine.tryFallback
    split
    · split
      · exact historyInv_updateContext _ _ _ _ (historyInv_setActive _ _ hInv)
      · exact ih
    · exact ih

/-- One engine generation call preserves the history invariant. -/
theorem historyInv_generateResponse (e : AIEngine) (u msg : String) (hInv : historyInv e) :
    historyInv (AIEngine.generateResponse e u msg).2 := by
  cases hA : e.activeModel with
  | none =>
    simp only [AIEngine.generateResponse, hA]
    exact hInv
  | some ai =>
    cases hP : e.persona with
    | none =>
      simp only [AIEngine.generateResponse, hA, hP]
      exact hInv
    | some p =>
      cases hE : e.models.get? ai with
      | none =>
        simp only [AIEngine.generateResponse, hA, hP, hE]
        exact hInv
      | some entry =>
        cases hG : entry.2.generate msg (AIEngine.mkContext p (e.getContextForUser u)) with
        | ok resp =>
          simp only [AIEngine.generateResponse, hA, hP, hE, hG]
          exact historyInv_updateContext _ _ _ _ hInv
        | error err =>
          simp only [AIEngine.generateResponse, hA, hP, hE, hG]
          exact historyInv_tryFallback _ _ _ _ hInv _

/-- Every sequence of engine calls preserves the history invariant. -/
theorem historyInv_runCalls : ∀ (calls : List (String × String)) (e : AIEngine),
    historyInv e → historyInv (runCalls e calls) := by
  intro calls
  induction calls with
  | nil => intro e h; exact h
  | cons c rest ih =>
    intro e h
    simp only [runCalls, List.foldl_cons]
    exact ih _ (historyInv_generateResponse _ _ _ h)

/-- If every tried backend in the list fails, the fallback loop returns the
exhaustion error and the engine unchanged. -/
theorem tryFallback_error (e : AIEngine) (userId message : String) (context : List String) :
    ∀ L, (∀ im ∈ L, (some im.1 ≠ e.activeModel ∧ im.2.available = true) →
        ∃ msg, im.2.generate message context = .error msg) →
      AIEngine.tryFallback e userId message context L =
        (.error "All AI models failed to generate response", e) := by
  intro L
  induction L with
  | nil => intro _; rfl
  | cons p rest ih =>
    intro h
    obtain ⟨i, m⟩ := p
    by_cases hc : some i ≠ e.activeModel ∧ m.available = true
    · obtain ⟨msg, hmsg⟩ := h (i, m) (by simp) hc
      have hmsg₂ : m.generate message context = Except.error msg := hmsg
      simp only [AIEngine.tryFallback, if_pos hc, hmsg₂]
      exact ih (fun im him h₂ => h im (by simp [him]) h₂)
    · simp only [AIEngine.tryFallback, if_neg hc]
      exact ih (fun im him h₂ => h im (by simp [him]) h₂)

/-- If every tried backend before position `i` fails and the backend at `i`
is tried and succeeds, the fallback loop returns its response and switches
the active pointer to `i`. -/
theorem tryFallback_success (e : AIEngine) (userId message : String) (context : List String)
    (i : Nat) (m : BackendModel) (post : List (Nat × BackendModel)) (resp : AIResponse)
    (hi : some i ≠ e.activeModel) (hav : m.available = true)
    (hok : m.generate message context = .ok resp) :
    ∀ pre, (∀ im ∈ pre, (some im.1 ≠ e.activeModel ∧ im.2.available = true) →
        ∃ msg, im.2.generate message context = .error msg) →
      AIEngine.tryFallback e userId message context (pre ++ (i, m) :: post) =
        (.ok resp,
         AIEngine.updateContext { e with activeModel := some i } userId message resp.text) := by
  intro pre
  induction pre with
  | nil =>
    intro _
    simp only [List.nil_append, AIEngine.tryFallback, if_pos (And.intro hi hav), hok]
  | cons q rest ih =>
    intro h
    obtain ⟨j, mq⟩ := q
    by_cases hc : some j ≠ e.activeModel ∧ mq.available = true
    · obtain ⟨msg, hmsg⟩ := h (j, mq) (by simp) hc
      have hmsg₂ : mq.generate message context = Except.error msg := hmsg
      simp only [List.cons_append, AIEngine.tryFallback, if_pos hc, hmsg₂]
      exact ih (fun im him h₂ => h im (by simp [him]) h₂)
    · simp only [List.cons_append, AIEngine.tryFallback, if_neg hc]
      exact ih (fun im him h₂ => h im (by simp [him]) h₂)

/-- The configuration after one `rotateApiKey` step (cursor advanced by one
modulo the key count). -/
def rotatedConfig (cfg : ModelConfig) : ModelConfig :=
  { cfg with
    current_key_index := some ((cfg.current_key_index.getD 0 + 1) % cfg.api_keys.length) }

/-- The whole `GeminiModel` state after one `rotateApiKey` step. -/
def rotatedGemini (s : GeminiState) (cfg : ModelConfig) : GeminiState :=
  { s with
    config := some (rotatedConfig cfg),
    client := some (cfg.api_keys.getD ((cfg.current_key_index.getD 0 + 1) % cfg.api_keys.length) "") }

/-- `rotateApiKey` on an initialized state with a non-empty key list:
cursor advances by one modulo the key count and the client is rebuilt from
the new cursor. -/
theorem rotateApiKey_ok (s : GeminiState) (cfg : ModelConfig)
    (hc : s.config = some cfg) (hn : 0 < cfg.api_keys.length) :
    s.rotateApiKey = .ok (rotatedGemini s cfg) := by
  have hz : cfg.api_keys.length ≠ 0 := Nat.pos_iff_ne_zero.mp hn
  unfold GeminiState.rotateApiKey GeminiState.initializeClient rotatedGemini rotatedConfig
  simp [hc, hz]

/-- Iterated rotation walks the cursor round-robin: starting from a valid
cursor `i`, after `j` rotations the cursor is `(i + j) % n`. -/
theorem rotateN_cursor (n : Nat) : ∀ (j : Nat) (s : GeminiState) (cfg : ModelConfig) (i : Nat),
    s.config = some cfg → cfg.api_keys.length = n → 0 < n →
    cfg.current_key_index = some i → i < n →
    ∃ s₁ cfg₁, rotateN s j = .ok s₁ ∧ s₁.config = some cfg₁ ∧
      cfg₁.api_keys = cfg.api_keys ∧ cfg₁.current_key_index = some ((i + j) % n) := by
  intro j
  induction j with
  | zero =>
    intro s cfg i hc hl hn hi hlt
    exact ⟨s, cfg, rfl, hc, rfl, by rw [hi, Nat.add_zero, Nat.mod_eq_of_lt hlt]⟩
  | succ j ih =>
    intro s cfg i hc hl hn hi hlt
    have hr := rotateApiKey_ok s cfg hc (by omega)
    obtain ⟨s₂, cfg₂, h1, h2, h3, h4⟩ := ih (rotatedGemini s cfg) (rotatedConfig cfg)
      ((i + 1) % n)
      (by simp [rotatedGemini]) (by simp [rotatedConfig, hl]) hn
      (by simp [rotatedConfig, hi, hl]) (Nat.mod_lt _ hn)
    refine ⟨s₂, cfg₂, ?_, h2, by simpa [rotatedConfig] using h3, ?_⟩
    · simp only [rotateN, hr]
      exact h1
    · rw [h4, Nat.mod_add_mod]
      have harith : i + 1 + j = i + (j + 1) := by omega
      rw [harith]

/-- A non-rate-limit failure from the external call surfaces immediately,
with no rotation and no retry. -/
theorem gemini_nonquota_immediate (s : GeminiState) (prompt : String) (context : List String)
    (msg : String) (rest : List ApiOutcome)
    (hcl : s.client.isSome = true) (hcf : s.config.isSome = true)
    (hq : isRateLimitError msg = false) :
    s.generateResponse prompt context (ApiOutcome.failure msg :: rest) = .error msg := by
  obtain ⟨key, hkey⟩ := Option.isSome_iff_exists.mp hcl
  obtain ⟨cfg, hcfg⟩ := Option.isSome_iff_exists.mp hcf
  simp [GeminiState.generateResponse, hkey, hcfg, hq]

/-- A run of `k` consecutive quota failures followed by one success: the
backend rotates and retries once per failure — `k` retries in total, not at
most one — consuming the whole oracle and finally returning the success. -/
theorem gemini_quota_run (prompt : String) (context : List String) (msg t : String)
    (hq : isRateLimitError msg = true) :
    ∀ (k : Nat) (s : GeminiState) (cfg : ModelConfig),
      s.client.isSome = true → s.config = some cfg → 0 < cfg.api_keys.length →
      ∃ s₁ cfg₁, s.generateResponse prompt context
          (List.replicate k (ApiOutcome.failure msg) ++ [ApiOutcome.success t]) =
        .ok ({ text := t, model_name := "gemini", emotional_response := analyzeEmotion t },
             s₁, []) ∧
        s₁.config = some cfg₁ ∧ cfg₁.api_keys = cfg.api_keys ∧
        cfg₁.current_key_index =
          (if k = 0 then cfg.current_key_index
           else some ((cfg.current_key_index.getD 0 + k) % cfg.api_keys.length)) := by
  intro k
  induction k with
  | zero =>
    intro s cfg hcl hc hn
    obtain ⟨key, hkey⟩ := Option.isSome_iff_exists.mp hcl
    refine ⟨{ s with usage_requests := s.usage_requests + 1,
                     usage_tokens := s.usage_tokens + (t.length + 3) / 4 },
            cfg, ?_, hc, rfl, by simp⟩
    simp [GeminiState.generateResponse, hkey, hc]
  | succ k ih =>
    intro s cfg hcl hc hn
    obtain ⟨key, hkey⟩ := Option.isSome_iff_exists.mp hcl
    have hr := rotateApiKey_ok s cfg hc hn
    obtain ⟨s₂, cfg₂, h1, h2, h3, h4⟩ := ih (rotatedGemini s cfg) (rotatedConfig cfg)
      (by simp [rotatedGemini]) (by simp [rotatedGemini])
      (by simpa [rotatedConfig] using hn)
    refine ⟨s₂, cfg₂, ?_, h2, by simpa [rotatedConfig] using h3, ?_⟩
    · simp only [List.replicate_succ, List.cons_append, GeminiState.generateResponse,
                 hkey, hc, hq, if_pos, hr]
      exact h1
    · rw [h4]
      by_cases hk : k = 0
      · subst hk
        simp [rotatedConfig]
      · simp only [hk, if_false]
        simp only [rotatedConfig, Option.getD_some, Nat.mod_add_mod]
        have harith : cfg.current_key_index.getD 0 + 1 + k =
            cfg.current_key_index.getD 0 + (k + 1) := by omega
        rw [harith]
        simp

/-- The sample loop succeeds exactly on even-length frames; an odd-length
frame always hits an out-of-range 16-bit read at its last byte. -/
theorem sumSquares_parity : ∀ (data : List Nat),
    (data.length % 2 = 0 → ∃ s, sumSquares data = .ok s) ∧
    (data.length % 2 = 1 → sumSquares data = .error "ERR_OUT_OF_RANGE")
  | [] => ⟨fun _ => ⟨0, rfl⟩, fun h => by simp at h⟩
  | [_] => ⟨fun h => by simp at h, fun _ => rfl⟩
  | b0 :: b1 :: rest => by
    obtain ⟨ih0, ih1⟩ := sumSquares_parity rest
    constructor
    · intro h
      have hrest : rest.length % 2 = 0 := by
        simp only [List.length_cons] at h
        omega
      obtain ⟨s, hs⟩ := ih0 hrest
      exact ⟨toSigned16 b0 b1 * toSigned16 b0 b1 + s, by simp [sumSquares, hs]⟩
    · intro h
      have hrest : rest.length % 2 = 1 := by
        simp only [List.length_cons] at h
        omega
      simp [sumSquares, ih1 hrest]

/-- The `(maxEmotion, maxCount)` scan of `analyzeEmotion` unrolled over the
five declared emotions, as a function of the five hit counts. -/
def pickFold (c1 c2 c3 c4 c5 : Nat) : String × Nat :=
  let b1 := if (("neutral", 0) : String × Nat).2 < c1 then ("happy", c1) else ("neutral", 0)
  let b2 := if b1.2 < c2 then ("sad", c2) else b1
  let b3 := if b2.2 < c3 then ("angry", c3) else b2
  let b4 := if b3.2 < c4 then ("confused", c4) else b3
  if b4.2 < c5 then ("neutral", c5) else b4

/-- Modelled from the spec wording: the emotion with the highest keyword
hit count, ties resolved by declaration order (happy, sad, angry, confused,
neutral), defaulting to neutral when every count is zero, paired with the
winning count. -/
def specEmotionChoice (c1 c2 c3 c4 c5 : Nat) : String × Nat :=
  if c1 = 0 ∧ c2 = 0 ∧ c3 = 0 ∧ c4 = 0 ∧ c5 = 0 then ("neutral", 0)
  else if c2 ≤ c1 ∧ c3 ≤ c1 ∧ c4 ≤ c1 ∧ c5 ≤ c1 then ("happy", c1)
  else if c1 < c2 ∧ c3 ≤ c2 ∧ c4 ≤ c2 ∧ c5 ≤ c2 then ("sad", c2)
  else if c1 < c3 ∧ c2 < c3 ∧ c4 ≤ c3 ∧ c5 ≤ c3 then ("angry", c3)
  else if c1 < c4 ∧ c2 < c4 ∧ c3 < c4 ∧ c5 ≤ c4 then ("confused", c4)
  else ("neutral", c5)

set_option maxHeartbeats 1600000 in
/-- The source's strict-improvement scan implements the first-maximum rule
of the specification. -/
theorem pickFold_eq_spec (c1 c2 c3 c4 c5 : Nat) :
    pickFold c1 c2 c3 c4 c5 = specEmotionChoice c1 c2 c3 c4 c5 := by
  simp only [pickFold, specEmotionChoice]
  split_ifs <;> first
    | rfl
    | (exfalso; omega)

/-- `analyzeEmotion` is the unrolled scan applied to the five keyword hit
counts of the lowercased text. -/
theorem analyzeEmotion_eq_pickFold (text : String) :
    analyzeEmotion text =
      { emotion := (pickFold
          (keywordHits ["happy", "joy", "excited", "glad", "😊", "😃"] (toLowerStr text))
          (keywordHits ["sad", "sorry", "unfortunate", "regret", "😢", "😔"] (toLowerStr text))
          (keywordHits ["angry", "upset", "frustrated", "annoyed", "😠", "😡"] (toLowerStr text))
          (keywordHits ["confused", "unsure", "maybe", "perhaps", "🤔", "😕"] (toLowerStr text))
          (keywordHits ["neutral", "okay", "fine", "normal", "🙂", "😐"] (toLowerStr text))).1,
        intensity := min (((pickFold
          (keywordHits ["happy", "joy", "excited", "glad", "😊", "😃"] (toLowerStr text))
          (keywordHits ["sad", "sorry", "unfortunate", "regret", "😢", "😔"] (toLowerStr text))
          (keywordHits ["angry", "upset", "frustrated", "annoyed", "😠", "😡"] (toLowerStr text))
          (keywordHits ["confused", "unsure", "maybe", "perhaps", "🤔", "😕"] (toLowerStr text))
          (keywordHits ["neutral", "okay", "fine", "normal", "🙂", "😐"] (toLowerStr text))).2 : Rat) / 5) 1,
        confidence := 7 / 10 } := rfl

/-- Dropping one pair distributes over an appended pair when at least one
pair is present. -/
theorem drop_two_append (l l₂ : List String) (h : 2 ≤ l.length) :
    (l ++ l₂).drop 2 = l.drop 2 ++ l₂ := by
  match l, h with
  | a :: b :: rest, _ => simp

/-- Claim C1: when the active backend's generate call fails and every other
registered available backend also fails on the same prompt and context,
`AIEngine.generateResponse` returns the `All AI models failed to generate
response` error, the engine state is returned unchanged, and in particular
the active-backend pointer after the call equals the pointer before it. -/
theorem engine_generateResponse_all_backends_fail
    (e : AIEngine) (userId message : String) (ai : Nat) (entry : String × BackendModel)
    (p : PersonaMetadata) (failMsg : String)
    (hactive : e.activeModel = some ai)
    (hp : e.persona = some p)
    (hentry : e.models.get? ai = some entry)
    (hfail : entry.2.generate message (AIEngine.mkContext p (e.getContextForUser userId)) =
      .error failMsg)
    (hall : ∀ im ∈ AIEngine.modelList e, some im.1 ≠ e.activeModel → im.2.available = true →
      ∃ msg, im.2.generate message (AIEngine.mkContext p (e.getContextForUser userId)) =
        .error msg) :
    AIEngine.generateResponse e userId message =
      (.error "All AI models failed to generate response", e) ∧
    (AIEngine.generateResponse e userId message).2.activeModel = e.activeModel := by
  have hmain : AIEngine.generateResponse e userId message =
      (.error "All AI models failed to generate response", e) := by
    simp only [AIEngine.generateResponse, hactive, hp, hentry, hfail]
    exact tryFallback_error e userId message _ _ (fun im him h₂ => hall im him h₂.1 h₂.2)
  exact ⟨hmain, by rw [hmain]⟩

/-- Persona fixture for the concrete engine scenarios. -/
def personaW : PersonaMetadata :=
  { name := "Pixie", role := "a helper", background := "loves chatting",
    speech_patterns := ["cheerful"] }

/-- An available backend whose generate call always fails. -/
def failingGemini : BackendModel :=
  { name := "gemini", available := true, generate := fun _ _ => .error "boom" }

/-- A second available backend whose generate call always fails. -/
def failingOpenai : BackendModel :=
  { name := "openai", available := true, generate := fun _ _ => .error "down" }

/-- Engine with two registered backends that both fail. -/
def engineAllFail : AIEngine :=
  { models := [("gemini", failingGemini), ("openai", failingOpenai)],
    activeModel := some 0, persona := some personaW, conversationHistory := [] }

/-- Witness for C1 at a concrete two-backend engine. -/
theorem engine_generateResponse_all_backends_fail_witness :
    AIEngine.generateResponse engineAllFail "user1" "hello" =
      (.error "All AI models failed to generate response", engineAllFail) ∧
    (AIEngine.generateResponse engineAllFail "user1" "hello").2.activeModel =
      engineAllFail.activeModel :=
  engine_generateResponse_all_backends_fail engineAllFail "user1" "hello" 0
    ("gemini", failingGemini) personaW "boom" rfl rfl rfl rfl
    (by
      intro im him hne hav
      simp only [AIEngine.modelList, engineAllFail, enumIdx, List.mem_cons,
        List.not_mem_nil, or_false] at him
      rcases him with h | h
      · subst h
        exact absurd rfl hne
      · subst h
        exact ⟨"down", rfl⟩)

/-- Claim C2: when the active backend fails and some other registered,
available backend succeeds, `AIEngine.generateResponse` returns the reply
of the first succeeding non-active available backend in registration order,
that backend becomes the active backend, and the exchange is recorded in
the participant's history. -/
theorem engine_generateResponse_failover
    (e : AIEngine) (userId message : String) (ai : Nat) (entry : String × BackendModel)
    (p : PersonaMetadata) (failMsg : String)
    (pre post : List (Nat × BackendModel)) (i : Nat) (m : BackendModel) (resp : AIResponse)
    (hactive : e.activeModel = some ai)
    (hp : e.persona = some p)
    (hentry : e.models.get? ai = some entry)
    (hfail : entry.2.generate message (AIEngine.mkContext p (e.getContextForUser userId)) =
      .error failMsg)
    (hsplit : AIEngine.modelList e = pre ++ (i, m) :: post)
    (hpre : ∀ im ∈ pre, (some im.1 ≠ e.activeModel ∧ im.2.available = true) →
      ∃ msg, im.2.generate message (AIEngine.mkContext p (e.getContextForUser userId)) =
        .error msg)
    (hi : some i ≠ e.activeModel) (hav : m.available = true)
    (hok : m.generate message (AIEngine.mkContext p (e.getContextForUser userId)) = .ok resp) :
    AIEngine.generateResponse e userId message =
      (.ok resp,
       AIEngine.updateContext { e with activeModel := some i } userId message resp.text) ∧
    (AIEngine.generateResponse e userId message).2.activeModel = some i := by
  have hmain : AIEngine.generateResponse e userId message =
      (.ok resp,
       AIEngine.updateContext { e with activeModel := some i } userId message resp.text) := by
    simp only [AIEngine.generateResponse, hactive, hp, hentry, hfail]
    rw [hsplit]
    rw [tryFallback_success e userId message _ i m post resp hi hav hok pre hpre, hp]
  refine ⟨hmain, ?_⟩
  rw [hmain]
  rfl

/-- The reply returned by the succeeding fallback backend in the fixture. -/
def respW : AIResponse :=
  { text := "hi there", model_name := "openai",
    emotional_response := { emotion := "neutral", intensity := 0, confidence := 7 / 10 } }

/-- An available backend whose generate call succeeds with `respW`. -/
def okOpenai : BackendModel :=
  { name := "openai", available := true, generate := fun _ _ => .ok respW }

/-- Engine whose active backend fails while the second registered backend
succeeds. -/
def engineFailover : AIEngine :=
  { models := [("gemini", failingGemini), ("openai", okOpenai)],
    activeModel := some 0, persona := some personaW, conversationHistory := [] }

/-- Witness for C2 at a concrete two-backend engine. -/
theorem engine_generateResponse_failover_witness :
    AIEngine.generateResponse engineFailover "user1" "hello" =
      (.ok respW,
       AIEngine.updateContext { engineFailover with activeModel := some 1 }
         "user1" "hello" respW.text) ∧
    (AIEngine.generateResponse engineFailover "user1" "hello").2.activeModel = some 1 :=
  engine_generateResponse_failover engineFailover "user1" "hello" 0
    ("gemini", failingGemini) personaW "boom"
    [(0, failingGemini)] [] 1 okOpenai respW
    rfl rfl rfl rfl rfl
    (by
      intro im him h₂
      simp only [List.mem_cons, List.not_mem_nil, or_false] at him
      subst him
      exact absurd rfl h₂.1)
    (by decide) rfl rfl

/-- Claim C3: across any sequence of engine generation calls, every
participant's history keeps at most `2 * maxHistoryPairs` entries and an
even length, and one update appends the new `(user, assistant)` pair while
evicting exactly the oldest complete pair precisely when the history is
already at the cap — never an odd number of entries. -/
theorem engine_history_bounded_eviction :
    (∀ (e : AIEngine) (calls : List (String × String)),
      historyInv e → historyInv (runCalls e calls)) ∧
    (∀ (e : AIEngine) (u m r : String), historyInv e →
      (AIEngine.updateContext e u m r).getContextForUser u =
        (if (e.getContextForUser u).length = 2 * maxHistoryPairs
         then List.drop 2 (e.getContextForUser u) ++ ["User: " ++ m, "Assistant: " ++ r]
         else e.getContextForUser u ++ ["User: " ++ m, "Assistant: " ++ r])) := by
  constructor
  · intro e calls h
    exact historyInv_runCalls calls e h
  · intro e u m r hInv
    obtain ⟨hle, hev⟩ := hInv u
    rw [getContext_updateContext_self]
    have hM : maxHistoryPairs = 10 := rfl
    have hlen : (e.getContextForUser u ++ ["User: " ++ m, "Assistant: " ++ r]).length =
        (e.getContextForUser u).length + 2 := by
      simp
    by_cases hc : (e.getContextForUser u).length = 2 * maxHistoryPairs
    · have h₁ : maxHistoryPairs * 2 <
          (e.getContextForUser u ++ ["User: " ++ m, "Assistant: " ++ r]).length := by
        omega
      rw [if_pos h₁, if_pos hc]
      exact drop_two_append _ _ (by omega)
    · have h₁ : ¬ maxHistoryPairs * 2 <
          (e.getContextForUser u ++ ["User: " ++ m, "Assistant: " ++ r]).length := by
        omega
      rw [if_neg h₁, if_neg hc]

/-- Engine with no conversation history yet. -/
def engineFresh : AIEngine :=
  { models := [("gemini", failingGemini)],
    activeModel := some 0, persona := some personaW, conversationHistory := [] }

/-- Witness for C3: the invariant holds after a concrete call sequence on a
fresh engine, and a concrete update appends without eviction. -/
theorem engine_history_bounded_eviction_witness :
    historyInv (runCalls engineFresh [("user1", "hello"), ("user1", "again")]) ∧
    (AIEngine.updateContext engineFresh "user1" "hi" "yo").getContextForUser "user1" =
      engineFresh.getContextForUser "user1" ++ ["User: " ++ "hi", "Assistant: " ++ "yo"] := by
  have hInv : historyInv engineFresh := by
    intro u
    simp [AIEngine.getContextForUser, engineFresh, List.lookup]
  constructor
  · exact engine_history_bounded_eviction.1 engineFresh _ hInv
  · have h := engine_history_bounded_eviction.2 engineFresh "user1" "hi" "yo" hInv
    rw [h, if_neg (by simp [AIEngine.getContextForUser, engineFresh, List.lookup,
      maxHistoryPairs])]

/-- Claim C7: for every reply text the emotional annotation picks the
emotion whose keyword set has the highest case-insensitive occurrence
count, ties resolved by declaration order (happy, sad, angry, confused,
neutral) and all-zero counts defaulting to neutral; intensity is
`min(hitCount / 5, 1)` and confidence is the fixed constant `0.7`; in
particular "I am so happy today!" yields happy with positive intensity. -/
theorem analyzeEmotion_argmax_spec :
    (∀ text : String,
      analyzeEmotion text =
        { emotion := (specEmotionChoice
            (keywordHits ["happy", "joy", "excited", "glad", "😊", "😃"] (toLowerStr text))
            (keywordHits ["sad", "sorry", "unfortunate", "regret", "😢", "😔"] (toLowerStr text))
            (keywordHits ["angry", "upset", "frustrated", "annoyed", "😠", "😡"] (toLowerStr text))
            (keywordHits ["confused", "unsure", "maybe", "perhaps", "🤔", "😕"] (toLowerStr text))
            (keywordHits ["neutral", "okay", "fine", "normal", "🙂", "😐"] (toLowerStr text))).1,
          intensity := min (((specEmotionChoice
            (keywordHits ["happy", "joy", "excited", "glad", "😊", "😃"] (toLowerStr text))
            (keywordHits ["sad", "sorry", "unfortunate", "regret", "😢", "😔"] (toLowerStr text))
            (keywordHits ["angry", "upset", "frustrated", "annoyed", "😠", "😡"] (toLowerStr text))
            (keywordHits ["confused", "unsure", "maybe", "perhaps", "🤔", "😕"] (toLowerStr text))
            (keywordHits ["neutral", "okay", "fine", "normal", "🙂", "😐"] (toLowerStr text))).2 : Rat)
            / 5) 1,
          confidence := 7 / 10 }) ∧
    analyzeEmotion "I am so happy today!" =
      { emotion := "happy", intensity := 1 / 5, confidence := 7 / 10 } ∧
    (0 : Rat) < 1 / 5 := by
  have hmain : ∀ text : String,
      analyzeEmotion text =
        { emotion := (specEmotionChoice
            (keywordHits ["happy", "joy", "excited", "glad", "😊", "😃"] (toLowerStr text))
            (keywordHits ["sad", "sorry", "unfortunate", "regret", "😢", "😔"] (toLowerStr text))
            (keywordHits ["angry", "upset", "frustrated", "annoyed", "😠", "😡"] (toLowerStr text))
            (keywordHits ["confused", "unsure", "maybe", "perhaps", "🤔", "😕"] (toLowerStr text))
            (keywordHits ["neutral", "okay", "fine", "normal", "🙂", "😐"] (toLowerStr text))).1,
          intensity := min (((specEmotionChoice
            (keywordHits ["happy", "joy", "excited", "glad", "😊", "😃"] (toLowerStr text))
            (keywordHits ["sad", "sorry", "unfortunate", "regret", "😢", "😔"] (toLowerStr text))
            (keywordHits ["angry", "upset", "frustrated", "annoyed", "😠", "😡"] (toLowerStr text))
            (keywordHits ["confused", "unsure", "maybe", "perhaps", "🤔", "😕"] (toLowerStr text))
            (keywordHits ["neutral", "okay", "fine", "normal", "🙂", "😐"] (toLowerStr text))).2 : Rat)
            / 5) 1,
          confidence := 7 / 10 } := by
    intro text
    rw [analyzeEmotion_eq_pickFold, pickFold_eq_spec]
  refine ⟨hmain, ?_, by norm_num⟩
  rw [hmain "I am so happy today!"]
  have hc : specEmotionChoice
      (keywordHits ["happy", "joy", "excited", "glad", "😊", "😃"]
        (toLowerStr "I am so happy today!"))
      (keywordHits ["sad", "sorry", "unfortunate", "regret", "😢", "😔"]
        (toLowerStr "I am so happy today!"))
      (keywordHits ["angry", "upset", "frustrated", "annoyed", "😠", "😡"]
        (toLowerStr "I am so happy today!"))
      (keywordHits ["confused", "unsure", "maybe", "perhaps", "🤔", "😕"]
        (toLowerStr "I am so happy today!"))
      (keywordHits ["neutral", "okay", "fine", "normal", "🙂", "😐"]
        (toLowerStr "I am so happy today!")) = ("happy", 1) := by decide
  rw [hc]
  simp only [EmotionalResponse.mk.injEq]
  refine ⟨trivial, ?_, trivial⟩
  rw [min_eq_left (by norm_num)]
  norm_num

/-- Claim C8: `switchModel` returns `true` and re-points the active backend
exactly when the named backend is registered and reports available; on an
unregistered or unavailable name it returns `false` without an exception
(it is a total function), the engine is unchanged, and the status query
still reports the previous active backend. -/
theorem switchModel_spec :
    (∀ (e : AIEngine) (t : String) (i : Nat) (entry : String × BackendModel),
      mapGetIdx e.models t = some i → e.models.get? i = some entry →
      (entry.2.available = true →
        AIEngine.switchModel e t = (true, { e with activeModel := some i })) ∧
      (entry.2.available = false →
        AIEngine.switchModel e t = (false, e) ∧
        (AIEngine.switchModel e t).2.getActiveModel = e.getActiveModel)) ∧
    (∀ (e : AIEngine) (t : String), mapGetIdx e.models t = none →
      AIEngine.switchModel e t = (false, e) ∧
      (AIEngine.switchModel e t).2.getActiveModel = e.getActiveModel) := by
  constructor
  · intro e t i entry hidx hget
    constructor
    · intro hav
      simp only [AIEngine.switchModel, hidx, hget]
      rw [if_pos hav]
    · intro hav
      have hnav : ¬ entry.2.available = true := by
        rw [hav]
        decide
      have hmain : AIEngine.switchModel e t = (false, e) := by
        simp only [AIEngine.switchModel, hidx, hget]
        rw [if_neg hnav]
      exact ⟨hmain, by rw [hmain]⟩
  · intro e t hidx
    have hmain : AIEngine.switchModel e t = (false, e) := by
      simp only [AIEngine.switchModel, hidx]
    exact ⟨hmain, by rw [hmain]⟩

/-- A registered backend with no usable credentials, reporting unavailable. -/
def openaiUnavailable : BackendModel :=
  { name := "openai", available := false, generate := fun _ _ => .error "no credentials" }

/-- Engine whose active gemini backend is available while the registered
"openai" backend is unavailable. -/
def engineSwitch : AIEngine :=
  { models := [("gemini", failingGemini), ("openai", openaiUnavailable)],
    activeModel := some 0, persona := none, conversationHistory := [] }

/-- Witness for C8: switching to the zero-credential "openai" backend
returns false and the status query still reports the previous backend. -/
theorem switchModel_spec_witness :
    AIEngine.switchModel engineSwitch "openai" = (false, engineSwitch) ∧
    (AIEngine.switchModel engineSwitch "openai").2.getActiveModel =
      engineSwitch.getActiveModel :=
  (switchModel_spec.1 engineSwitch "openai" 1 ("openai", openaiUnavailable) rfl rfl).2 rfl

/-- Claim C10: a successful `GeminiModel` initialization with `n` keys and
no `current_key_index` in the configuration immediately rotates the cursor
to `1 % n`, so with `n ≥ 2` the client (used by the first generate call) is
built from the second configured credential, and `j` further rotations put
the cursor at `(1 + j) % n` — the first credential recurs only after a full
round-robin cycle. -/
theorem gemini_initModel_advances_cursor (s : GeminiState) (keys : List String)
    (mn : Option String) (hn : 0 < keys.length) :
    ∃ s₁ cfg₁,
      GeminiState.initModel s
        { api_keys := keys, model_name := mn, current_key_index := none } = .ok s₁ ∧
      s₁.config = some cfg₁ ∧ cfg₁.api_keys = keys ∧
      cfg₁.current_key_index = some (1 % keys.length) ∧
      s₁.client = some (keys.getD (1 % keys.length) "") ∧
      (2 ≤ keys.length → cfg₁.current_key_index = some 1 ∧ s₁.client = some (keys.getD 1 "")) ∧
      (∀ j, ∃ s₂ cfg₂, rotateN s₁ j = .ok s₂ ∧ s₂.config = some cfg₂ ∧
        cfg₂.current_key_index = some ((1 + j) % keys.length)) := by
  have hz : keys.length ≠ 0 := Nat.pos_iff_ne_zero.mp hn
  have hr := rotateApiKey_ok
    { s with config := some { api_keys := keys, model_name := mn, current_key_index := none } }
    { api_keys := keys, model_name := mn, current_key_index := none } rfl hn
  have hinit : GeminiState.initModel s
      { api_keys := keys, model_name := mn, current_key_index := none } =
      .ok (rotatedGemini
        { s with config := some { api_keys := keys, model_name := mn, current_key_index := none } }
        { api_keys := keys, model_name := mn, current_key_index := none }) := by
    simp only [GeminiState.initModel, if_neg hz]
    exact hr
  refine ⟨_, _, hinit, rfl, rfl, rfl, rfl, ?_, ?_⟩
  · intro h2
    have h1 : 1 % keys.length = 1 := Nat.mod_eq_of_lt (by omega)
    constructor
    · show some (1 % keys.length) = some 1
      rw [h1]
    · show some (keys.getD (1 % keys.length) "") = some (keys.getD 1 "")
      rw [h1]
  · intro j
    obtain ⟨s₂, cfg₂, h1, h2, h3, h4⟩ := rotateN_cursor keys.length j (rotatedGemini { s with config := some { api_keys := keys, model_name := mn, current_key_index := none } } { api_keys := keys, model_name := mn, current_key_index := none }) (rotatedConfig { api_keys := keys, model_name := mn, current_key_index := none }) (1 % keys.length) rfl rfl hn rfl (Nat.mod_lt _ hn)
    refine ⟨s₂, cfg₂, h1, h2, ?_⟩
    rw [h4, Nat.mod_add_mod]

/-- Witness for C10 with two configured credentials. -/
theorem gemini_initModel_advances_cursor_witness :
    ∃ s₁ cfg₁,
      GeminiState.initModel
        { client := none, config := none, usage_tokens := 0, usage_requests := 0 }
        { api_keys := ["keyA", "keyB"], model_name := none, current_key_index := none } =
        .ok s₁ ∧
      s₁.config = some cfg₁ ∧ cfg₁.api_keys = ["keyA", "keyB"] ∧
      cfg₁.current_key_index = some (1 % (["keyA", "keyB"] : List String).length) ∧
      s₁.client = some ((["keyA", "keyB"] : List String).getD
        (1 % (["keyA", "keyB"] : List String).length) "") ∧
      (2 ≤ (["keyA", "keyB"] : List String).length →
        cfg₁.current_key_index = some 1 ∧
        s₁.client = some ((["keyA", "keyB"] : List String).getD 1 "")) ∧
      (∀ j, ∃ s₂ cfg₂, rotateN s₁ j = .ok s₂ ∧ s₂.config = some cfg₂ ∧
        cfg₂.current_key_index = some ((1 + j) % (["keyA", "keyB"] : List String).length)) :=
  gemini_initModel_advances_cursor
    { client := none, config := none, usage_tokens := 0, usage_requests := 0 }
    ["keyA", "keyB"] none (by decide)

/-- The two-credential configuration with the cursor on index 1, as
`initialize` leaves it. -/
def twoKeysCfg : ModelConfig :=
  { api_keys := ["k0", "k1"], model_name := none, current_key_index := some 1 }

/-- A `GeminiModel` state as it stands right after initialization with the
two credentials `k0`, `k1` (cursor on index 1, client built from `k1`). -/
def geminiTwoKeys : GeminiState :=
  { client := some "k1", config := some twoKeysCfg, usage_tokens := 0, usage_requests := 0 }

/-- Counterexample to claim C4: the claim bounds the backend-internal
retries by one before surfacing failure, but on two consecutive quota
failures the recursive self-invocation rotates and retries twice — all
three oracle outcomes are consumed (remainder `[]`, so one initial attempt
plus two retries) and the call succeeds instead of surfacing a failure
after at most one retry. -/
theorem gemini_retry_bound_cex :
    GeminiState.generateResponse geminiTwoKeys "hi" []
      [ApiOutcome.failure "quota exceeded", ApiOutcome.failure "quota exceeded",
       ApiOutcome.success "ok"] =
      .ok ({ text := "ok", model_name := "gemini", emotional_response := analyzeEmotion "ok" },
           { client := some "k1", config := some twoKeysCfg,
             usage_tokens := 1, usage_requests := 1 }, []) := rfl

/-- Claim C4 as amended: on a quota error the backend rotates its
credential cursor round-robin and recursively retries with no bound — a
run of `k` consecutive quota errors yields `k` rotations and `k` retries
(the whole oracle is consumed) before the final outcome is returned, while
a non-quota error surfaces immediately with no retry. -/
theorem gemini_rotate_retry_unbounded :
    (∀ (k : Nat) (s : GeminiState) (cfg : ModelConfig) (prompt : String)
       (context : List String) (msg t : String),
      isRateLimitError msg = true →
      s.client.isSome = true → s.config = some cfg → 0 < cfg.api_keys.length →
      ∃ s₁ cfg₁, GeminiState.generateResponse s prompt context
          (List.replicate k (ApiOutcome.failure msg) ++ [ApiOutcome.success t]) =
        .ok ({ text := t, model_name := "gemini", emotional_response := analyzeEmotion t },
             s₁, []) ∧
        s₁.config = some cfg₁ ∧ cfg₁.api_keys = cfg.api_keys ∧
        cfg₁.current_key_index =
          (if k = 0 then cfg.current_key_index
           else some ((cfg.current_key_index.getD 0 + k) % cfg.api_keys.length))) ∧
    (∀ (s : GeminiState) (prompt : String) (context : List String) (msg : String)
       (rest : List ApiOutcome),
      s.client.isSome = true → s.config.isSome = true → isRateLimitError msg = false →
      GeminiState.generateResponse s prompt context (ApiOutcome.failure msg :: rest) =
        .error msg) := by
  constructor
  · intro k s cfg prompt context msg t hq hcl hc hn
    exact gemini_quota_run prompt context msg t hq k s cfg hcl hc hn
  · intro s prompt context msg rest hcl hcf hq
    exact gemini_nonquota_immediate s prompt context msg rest hcl hcf hq

/-- Witness for the amended C4 at two keys and a two-error quota run. -/
theorem gemini_rotate_retry_unbounded_witness :
    ∃ s₁ cfg₁, GeminiState.generateResponse geminiTwoKeys "hi" []
        (List.replicate 2 (ApiOutcome.failure "quota exceeded") ++ [ApiOutcome.success "ok"]) =
      .ok ({ text := "ok", model_name := "gemini", emotional_response := analyzeEmotion "ok" },
           s₁, []) ∧
      s₁.config = some cfg₁ ∧ cfg₁.api_keys = twoKeysCfg.api_keys ∧
      cfg₁.current_key_index =
        (if (2 : Nat) = 0 then twoKeysCfg.current_key_index
         else some ((twoKeysCfg.current_key_index.getD 0 + 2) % twoKeysCfg.api_keys.length)) :=
  gemini_rotate_retry_unbounded.1 2 geminiTwoKeys twoKeysCfg
    "hi" [] "quota exceeded" "ok" (by decide) rfl rfl (by decide)

/-- A `VoiceProcessor` state buffering one speech chunk, with the silence
clock last reset at time 1000. -/
def vpBufState : VoiceProcessorState :=
  { audioBuffer := [{ data := [0, 16], timestamp := 100 }], isProcessing := false,
    silenceThreshold := 500, lastAudioTime := 1000, vadEnabled := true }

/-- Counterexample to claim C5: a silence frame arriving while a turn is
buffering and the trailing silence (200 ms) is below the threshold
(500 ms) is dropped, not appended — the state is returned unchanged, so
the buffer differs from the appended buffer the claim asserts (the
no-boundary half of the claim does hold: no flush is emitted). -/
theorem vad_silence_not_appended_cex :
    vadTransformStep vpBufState [0, 0] 1200 = .ok (vpBufState, .silent) ∧
    vpBufState.audioBuffer ≠
      vpBufState.audioBuffer ++ [{ data := [0, 0], timestamp := 1200 }] := by
  exact ⟨rfl, by decide⟩

/-- Claim C5 as amended: when a silence frame arrives while a turn is
buffering and the running trailing silence is still strictly below the
silence threshold, the segmenter discards the silence frame — the
processor state, including the audio buffer, is unchanged — and emits no
turn boundary in that silence run. -/
theorem vad_short_silence_discarded (st : VoiceProcessorState) (chunk : List Nat) (now : Nat)
    (hsil : detectSpeech st chunk = .ok false)
    (hbuf : st.audioBuffer ≠ [])
    (hdur : now - st.lastAudioTime < st.silenceThreshold) :
    vadTransformStep st chunk now = .ok (st, .silent) := by
  have hc : ¬ (st.silenceThreshold < now - st.lastAudioTime ∧ st.audioBuffer ≠ []) :=
    fun h => absurd h.1 (by omega)
  simp only [vadTransformStep, hsil]
  rw [if_neg hc]

/-- Witness for the amended C5 at a concrete buffering state. -/
theorem vad_short_silence_discarded_witness :
    vadTransformStep vpBufState [0, 0] 1200 = .ok (vpBufState, .silent) :=
  vad_short_silence_discarded vpBufState [0, 0] 1200 rfl (by decide) (by decide)

/-- A `VoiceProcessor` state with voice-activity detection enabled. -/
def vpVadOn : VoiceProcessorState :=
  { audioBuffer := [], isProcessing := false, silenceThreshold := 500,
    lastAudioTime := 0, vadEnabled := true }

/-- Counterexample to claim C6: on the odd-length frame `[0]` the speech
detector raises Node's out-of-range error from `readInt16LE` instead of
truncating to the last full sample and returning a boolean. -/
theorem detectSpeech_odd_frame_cex :
    detectSpeech vpVadOn [0] = .error "ERR_OUT_OF_RANGE" ∧
    ∀ b : Bool, detectSpeech vpVadOn [0] ≠ .ok b := by
  refine ⟨rfl, ?_⟩
  intro b h
  rw [show detectSpeech vpVadOn [0] = .error "ERR_OUT_OF_RANGE" from rfl] at h
  exact Except.noConfusion h

/-- Claim C6 as amended: `detectSpeech` returns a boolean without error on
every even-length frame (the empty frame yields `false`, as the source's
`NaN > 1000` comparison does), but on an odd-length frame with VAD enabled
the 16-bit read at the last byte is out of range and the call fails with a
range error instead of truncating. -/
theorem detectSpeech_even_total_odd_error :
    (∀ (st : VoiceProcessorState) (data : List Nat), data.length % 2 = 0 →
      ∃ b, detectSpeech st data = .ok b) ∧
    (∀ (st : VoiceProcessorState) (data : List Nat), st.vadEnabled = true →
      data.length % 2 = 1 → detectSpeech st data = .error "ERR_OUT_OF_RANGE") := by
  constructor
  · intro st data h
    by_cases hv : st.vadEnabled = false
    · exact ⟨true, by simp [detectSpeech, hv]⟩
    · obtain ⟨s, hs⟩ := (sumSquares_parity data).1 h
      exact ⟨(if data.length = 0 then false
              else decide ((1000000 : Int) * data.length < 2 * s)),
             by simp [detectSpeech, hv, hs]⟩
  · intro st data hv h
    have hnv : ¬ st.vadEnabled = false := by
      rw [hv]
      decide
    simp [detectSpeech, hnv, (sumSquares_parity data).2 h]

/-- Witness for the amended C6: an even frame yields a boolean, an odd
frame yields the range error. -/
theorem detectSpeech_even_total_odd_error_witness :
    (∃ b, detectSpeech vpVadOn [0, 16] = .ok b) ∧
    detectSpeech vpVadOn [7] = .error "ERR_OUT_OF_RANGE" :=
  ⟨detectSpeech_even_total_odd_error.1 vpVadOn [0, 16] (by decide),
   detectSpeech_even_total_odd_error.2 vpVadOn [7] rfl (by decide)⟩

/-- The shared `VoiceProcessor` before any frame. -/
def vpShared0 : VoiceProcessorState :=
  { audioBuffer := [], isProcessing := false, silenceThreshold := 500,
    lastAudioTime := 0, vadEnabled := true }

/-- The shared `VoiceProcessor` after Alice's speech frame. -/
def vpShared1 : VoiceProcessorState :=
  { audioBuffer := [{ data := [0, 16], timestamp := 100 }], isProcessing := false,
    silenceThreshold := 500, lastAudioTime := 100, vadEnabled := true }

/-- The shared `VoiceProcessor` after Bob's silence frame flushed it. -/
def vpShared2 : VoiceProcessorState :=
  { audioBuffer := [], isProcessing := false, silenceThreshold := 500,
    lastAudioTime := 100, vadEnabled := true }

/-- The voice manager before any frame, with two participants' streams
subscribed but one shared `VoiceProcessor`. -/
def dvmShared0 : DiscordVoiceManagerState :=
  { voiceProcessor := vpShared0, activeStreams := [("alice", 0), ("bob", 1)] }

/-- The same manager after processing Alice's speech frame. -/
def dvmShared1 : DiscordVoiceManagerState :=
  { voiceProcessor := vpShared1, activeStreams := [("alice", 0), ("bob", 1)] }

/-- The same manager after Bob's silence frame flushed the shared buffer. -/
def dvmShared2 : DiscordVoiceManagerState :=
  { voiceProcessor := vpShared2, activeStreams := [("alice", 0), ("bob", 1)] }

/-- Counterexample to claim C9: processing Bob's silence frame reads and
mutates the very audio buffer and silence clock that Alice's frames
populated — Bob's step emits a flush containing Alice's chunk `[0, 16]`
and clears the shared buffer, so per-participant turn processing is not
non-interfering. -/
theorem voice_state_shared_cex :
    processParticipantFrame dvmShared0 "alice" [0, 16] 100 =
      .ok (dvmShared1, .forward [0, 16]) ∧
    processParticipantFrame dvmShared1 "bob" [0, 0] 1000 =
      .ok (dvmShared2, .flush [0, 16]) ∧
    dvmShared2.voiceProcessor.audioBuffer = [] ∧
    dvmShared1.voiceProcessor ≠ dvmShared2.voiceProcessor := by
  exact ⟨rfl, rfl, rfl, by decide⟩

/-- Claim C9 as amended: per-participant conversation histories in the AI
engine are partitioned — one participant's update never changes another's
history — but the voice processor's audio buffer, silence clock and
in-flight flag are fields of the single `VoiceProcessor` instance shared
by all participants, so processing one participant's frames does read and
mutate the segmentation state used for another (concretely, Bob's silence
frame flushes and clears audio buffered from Alice's speech frame). -/
theorem history_partitioned_voice_state_shared :
    (∀ (e : AIEngine) (u₁ u₂ m r : String), u₁ ≠ u₂ →
      (AIEngine.updateContext e u₁ m r).getContextForUser u₂ = e.getContextForUser u₂) ∧
    processParticipantFrame dvmShared1 "bob" [0, 0] 1000 =
      .ok (dvmShared2, .flush [0, 16]) := by
  constructor
  · intro e u₁ u₂ m r h
    exact getContext_updateContext_ne e u₁ u₂ m r (Ne.symm h)
  · rfl

/-- Witness for the amended C9: updating Alice's history leaves Bob's
history unchanged on a concrete engine. -/
theorem history_partitioned_voice_state_shared_witness :
    (AIEngine.updateContext engineFresh "alice" "hi" "yo").getContextForUser "bob" =
      engineFresh.getContextForUser "bob" :=
  history_partitioned_voice_state_shared.1 engineFresh "alice" "bob" "hi" "yo" (by decide)
